import Mathlib

/-!
# Verification of the ClaimGuard UI presentation layer

Shallow embedding of `src/CCG-UI/causal-claim-guard-ui/src/app/app.component.ts`
(the `AppComponent` class) together with the payload interfaces from the
`CausalAnalyzerService` module, and proofs about the diagram-layout and
trust-presentation logic.

JavaScript numbers are modelled as `ℚ` (the relevant computations stay on
exactly representable values); `Math.round` and `Number.prototype.toFixed`
follow the ECMAScript definitions (ties resolved toward `+∞`).  Nullable /
optional TypeScript fields become `Option`.
-/

/-- `SourcePayload` from `causal-analyzer.service.ts` (`Type` is a Lean
keyword, so the field is spelled `Type_`). -/
structure SourcePayload where
  Title : Option String
  Url : Option String
  Type_ : Option String
  SampleSize : Option Int
  Year : Option Int
  PeerReviewed : Option Bool
deriving Repr, DecidableEq

/-- `AnalyzeRequestPayload` from `causal-analyzer.service.ts`. -/
structure AnalyzeRequestPayload where
  TextClaim : String
  Domain : String
  Sources : List SourcePayload
deriving Repr, DecidableEq

/-- The `Template` field of `AnalyzeResponsePayload` (a causal template). -/
structure CausalTemplate where
  X : String
  Y : String
  Z : List String
  Edges : List (String × String)
  Note : String
deriving Repr, DecidableEq

/-- The `Estimand` field of `AnalyzeResponsePayload`. -/
structure Estimand where
  Identifiable : Bool
  Expression : String
  Reason : String
deriving Repr, DecidableEq

/-- The trust record `{ m, c, Source?, Details? }` used for both
`SourceTrust` entries and `AggregatedTrust`. -/
structure TrustScore where
  m : ℚ
  c : ℚ
  Source : Option String
  Details : Option String
deriving Repr, DecidableEq

/-- `AnalyzeResponsePayload` from `causal-analyzer.service.ts`.  `Rung` is
typed `'L1' | 'L2' | 'L3'` in TypeScript but arrives from JSON unchecked,
so it is modelled as a plain string, matching the defensive branching in
`rungLabel` / `rungClass`. -/
structure AnalyzeResponsePayload where
  TextClaim : String
  Domain : String
  Rung : String
  Template : CausalTemplate
  Estimand : Estimand
  SourceTrust : List TrustScore
  AggregatedTrust : TrustScore
  Explanation : String
deriving Repr, DecidableEq

/-- `DagNode` interface of `app.component.ts`.  `kind` is one of
`"X" | "Y" | "Z"`, kept as a string. -/
structure DagNode where
  id : String
  label : String
  kind : String
  x : Int
  y : Int
deriving Repr, DecidableEq

/-- `DagEdge` interface of `app.component.ts` (`from`/`to` are Lean
keywords, so the fields are spelled `from_`/`to_`). -/
structure DagEdge where
  from_ : String
  to_ : String
deriving Repr, DecidableEq

/-- The mutable fields of `AppComponent` (form fields and UI state). -/
structure AppComponent where
  claim : String
  domain : String
  sourceType : String
  sourceUrl : String
  sourceTitle : String
  sourceYear : Option Int
  sampleSize : Option Int
  loading : Bool
  statusText : String
  backendStatus : String
  result : Option AnalyzeResponsePayload
deriving Repr, DecidableEq

/-- ECMAScript `Math.round`: round to the nearest integer, ties toward
`+∞`, i.e. `⌊q + 1/2⌋`. -/
def mathRound (q : ℚ) : Int := ⌊q + 1/2⌋

/-- Print `n / 100` in decimal with exactly two digits after the point. -/
def toFixedInt (n : Int) : String :=
  (if n < 0 then "-" else "") ++ toString (n.natAbs / 100) ++ "." ++
    (if n.natAbs % 100 < 10 then "0" ++ toString (n.natAbs % 100)
     else toString (n.natAbs % 100))

/-- ECMAScript `Number.prototype.toFixed(2)` on an exact rational: pick the
integer `n` with `n / 100` closest to the value (the larger one on a tie)
and print `n / 100` with exactly two digits after the decimal point. -/
def toFixed2 (q : ℚ) : String :=
  toFixedInt ⌊q * 100 + 1/2⌋

/-- Does `needle` occur at the head of `l`? -/
def charsPrefix : List Char → List Char → Bool
  | [], _ => true
  | _ :: _, [] => false
  | a :: as, b :: bs => a == b && charsPrefix as bs

/-- Does `needle` occur anywhere in `l`? -/
def charsContain (needle : List Char) : List Char → Bool
  | [] => needle.isEmpty
  | c :: cs => charsPrefix needle (c :: cs) || charsContain needle cs

/-- JavaScript `String.prototype.includes`. -/
def strIncludes (hay needle : String) : Bool :=
  charsContain needle.toList hay.toList

/-- JavaScript `String.prototype.trim`: strip whitespace from both ends. -/
def jsTrim (s : String) : String :=
  String.mk (((s.toList.dropWhile Char.isWhitespace).reverse.dropWhile
    Char.isWhitespace).reverse)

/-- The `X` node pushed first by the `dagNodes` getter (left center). -/
def xNodeOf (tpl : CausalTemplate) : DagNode :=
  { id := tpl.X, label := "X: " ++ tpl.X, kind := "X", x := 80, y := 90 }

/-- The `Y` node pushed second by the `dagNodes` getter (right center). -/
def yNodeOf (tpl : CausalTemplate) : DagNode :=
  { id := tpl.Y, label := "Y: " ++ tpl.Y, kind := "Y", x := 260, y := 90 }

/-- The covariate node built by the `zs.forEach((z, index) => ...)` body:
`isTop = index % 2 === 0`, `rowIndex = Math.floor(index / 2)`,
`xBase = 80 + rowIndex * 80`, `y = isTop ? 30 : 150`. -/
def zNode (index : Nat) (z : String) : DagNode :=
  let isTop := index % 2 == 0
  let rowIndex := index / 2
  let xBase : Int := 80 + (rowIndex : Int) * 80
  { id := z, label := "Z: " ++ z, kind := "Z", x := xBase,
    y := if isTop then 30 else 150 }

/-- The list of covariate nodes produced by `zs.forEach((z, index) => ...)`,
with `index` starting at `k`. -/
def zNodesFrom (k : Nat) : List String → List DagNode
  | [] => []
  | z :: zs => zNode k z :: zNodesFrom (k + 1) zs

/-- The `dagNodes` getter applied to a (present) template: `[X, Y]`
followed by the covariate nodes in order. -/
def dagNodesOf (tpl : CausalTemplate) : List DagNode :=
  xNodeOf tpl :: yNodeOf tpl :: zNodesFrom 0 tpl.Z

/-- The `dagNodes` getter on the component: empty when there is no result
(`const tpl = this.result?.Template; if (!tpl) return []`). -/
def dagNodes (s : AppComponent) : List DagNode :=
  match s.result with
  | none => []
  | some r => dagNodesOf r.Template

/-- The `dagEdges` getter applied to a (present) template:
`tpl.Edges.map(([from, to]) => ({ from, to }))`. -/
def dagEdgesOf (tpl : CausalTemplate) : List DagEdge :=
  tpl.Edges.map (fun p => { from_ := p.1, to_ := p.2 })

/-- The `dagEdges` getter on the component. -/
def dagEdges (s : AppComponent) : List DagEdge :=
  match s.result with
  | none => []
  | some r => dagEdgesOf r.Template

/-- `getNodeFor(name)`: first laid-out node whose `id` equals `name`. -/
def getNodeFor (s : AppComponent) (name : String) : Option DagNode :=
  (dagNodes s).find? (fun n => n.id == name)

/-- The `rungLabel` getter. -/
def rungLabel (s : AppComponent) : String :=
  match s.result with
  | none => "L1 · Association"
  | some r =>
    if r.Rung = "L2" then "L2 · Intervention"
    else if r.Rung = "L3" then "L3 · Counterfactual"
    else "L1 · Association"

/-- The `rungClass` getter. -/
def rungClass (s : AppComponent) : String :=
  match s.result with
  | none => "badge-rung-l1"
  | some r =>
    if r.Rung = "L2" then "badge-rung-l2"
    else if r.Rung = "L3" then "badge-rung-l3"
    else "badge-rung-l1"

/-- The `trustPercent` getter: `Math.round(AggregatedTrust.m * 100)`, `0`
when no result. -/
def trustPercent (s : AppComponent) : Int :=
  match s.result with
  | none => 0
  | some r => mathRound (r.AggregatedTrust.m * 100)

/-- The `confPercent` getter: `Math.round(AggregatedTrust.c * 100)`, `0`
when no result. -/
def confPercent (s : AppComponent) : Int :=
  match s.result with
  | none => 0
  | some r => mathRound (r.AggregatedTrust.c * 100)

/-- The `trustHint` getter.  On `Option String` both `agg.Details || ''`
and `agg.Details ?? ''` reduce to `Option.getD "" ` (a present empty
string is unchanged by either). -/
def trustHint (s : AppComponent) : String :=
  match s.result with
  | none => "No sources provided · T(m, c) defaults to (0, 0) = complete uncertainty."
  | some r =>
    let agg := r.AggregatedTrust
    if agg.m = 0 ∧ agg.c = 0 ∧ strIncludes (agg.Details.getD "") "no sources" then
      "No sources provided · T(m, c) = (0, 0) → complete uncertainty about evidence."
    else
      "Aggregated trust T(m, c) = (" ++ toFixed2 agg.m ++ ", " ++ toFixed2 agg.c
        ++ ") · " ++ agg.Details.getD ""

/-- The synchronous part of `runAnalysis()`: returns the updated component
state together with the request payload handed to
`this.analyzer.analyze(payload)`, or `none` when the early `return` fires
before any request is issued. -/
def runAnalysis (s : AppComponent) : AppComponent × Option AnalyzeRequestPayload :=
  let trimmed := jsTrim s.claim
  if trimmed = "" then
    ({ s with statusText := "Please enter a claim before running analysis." }, none)
  else
    let sources : List SourcePayload :=
      if jsTrim s.sourceUrl = "" then []
      else
        [{ Title := if jsTrim s.sourceTitle = "" then none else some (jsTrim s.sourceTitle),
           Url := some (jsTrim s.sourceUrl),
           Type_ := if s.sourceType = "" then none else some s.sourceType,
           SampleSize := s.sampleSize,
           Year := s.sourceYear,
           PeerReviewed := some (s.sourceType == "peer-reviewed") }]
    let domainPayload := if s.domain = "auto" then "auto" else s.domain
    let payload : AnalyzeRequestPayload :=
      { TextClaim := trimmed, Domain := domainPayload, Sources := sources }
    ({ s with loading := true, statusText := "Analyzing claim…" }, some payload)

/-- The `next` callback of the `runAnalysis` subscription. -/
def onAnalysisSuccess (s : AppComponent) (res : AnalyzeResponsePayload) : AppComponent :=
  { s with result := some res, statusText := "Analysis complete.",
           backendStatus := "connected", loading := false }

/-- The `error` callback of the `runAnalysis` subscription (the
`console.error` call has no effect on component state). -/
def onAnalysisError (s : AppComponent) : AppComponent :=
  { s with statusText := "Error during analysis. Check backend.",
           backendStatus := "error", loading := false }

example : dagNodesOf { X := "coffee", Y := "sleep", Z := ["age", "diet", "stress"], Edges := [], Note := "" } =
    [ { id := "coffee", label := "X: coffee", kind := "X", x := 80, y := 90 },
      { id := "sleep", label := "Y: sleep", kind := "Y", x := 260, y := 90 },
      { id := "age", label := "Z: age", kind := "Z", x := 80, y := 30 },
      { id := "diet", label := "Z: diet", kind := "Z", x := 80, y := 150 },
      { id := "stress", label := "Z: stress", kind := "Z", x := 160, y := 30 } ] := by
  decide

/-! ## Helper lemmas about the covariate fan-out -/

theorem zNodesFrom_length (k : Nat) (zs : List String) :
    (zNodesFrom k zs).length = zs.length := by
  induction zs generalizing k with
  | nil => rfl
  | cons z zs ih => simp [zNodesFrom, ih]

theorem zNodesFrom_getElem (zs : List String) (k i : Nat) (h : i < zs.length) :
    (zNodesFrom k zs)[i]? = some (zNode (k + i) (zs[i])) := by
  induction zs generalizing k i with
  | nil => simp at h
  | cons z zs ih =>
    cases i with
    | zero => simp [zNodesFrom]
    | succ i =>
      simp only [zNodesFrom, List.getElem?_cons_succ, List.getElem_cons_succ]
      rw [ih (k + 1) i (by simpa using h)]
      rw [show k + 1 + i = k + (i + 1) by omega]

theorem zNodesFrom_mem (k : Nat) (zs : List String) (n : DagNode)
    (h : n ∈ zNodesFrom k zs) : ∃ j w, n = zNode (k + j) w := by
  induction zs generalizing k with
  | nil => simp [zNodesFrom] at h
  | cons z zs ih =>
    rcases List.mem_cons.mp h with rfl | h'
    · exact ⟨0, z, by simp⟩
    · obtain ⟨j, w, rfl⟩ := ih (k + 1) h'
      exact ⟨j + 1, w, by rw [show k + (j + 1) = k + 1 + j by omega]⟩

theorem zNode_y_cases (i : Nat) (z : String) :
    (zNode i z).y = 30 ∨ (zNode i z).y = 150 := by
  by_cases h : i % 2 = 0 <;> simp [zNode, h]

theorem zNode_pos_ne (i j : Nat) (hij : i < j) (z w : String) :
    ((zNode i z).x, (zNode i z).y) ≠ ((zNode j w).x, (zNode j w).y) := by
  intro hcontra
  rw [Prod.mk.injEq] at hcontra
  obtain ⟨hx, hy⟩ := hcontra
  simp only [zNode] at hx hy
  by_cases hi : i % 2 = 0 <;> by_cases hj : j % 2 = 0 <;>
    simp [hi, hj] at hy <;> omega

theorem zNodesFrom_pairwise_pos (zs : List String) (k : Nat) :
    (zNodesFrom k zs).Pairwise (fun a b => (a.x, a.y) ≠ (b.x, b.y)) := by
  induction zs generalizing k with
  | nil => simp [zNodesFrom]
  | cons z zs ih =>
    refine List.Pairwise.cons ?_ (ih (k + 1))
    intro n hn
    obtain ⟨j, w, rfl⟩ := zNodesFrom_mem (k + 1) zs n hn
    exact zNode_pos_ne k (k + 1 + j) (by omega) z w

theorem zNodesFrom_map_pos (zs1 zs2 : List String) (k : Nat)
    (h : zs1.length = zs2.length) :
    (zNodesFrom k zs1).map (fun n => (n.x, n.y)) =
      (zNodesFrom k zs2).map (fun n => (n.x, n.y)) := by
  induction zs1 generalizing zs2 k with
  | nil =>
    cases zs2 with
    | nil => rfl
    | cons w ws => simp at h
  | cons z zs ih =>
    cases zs2 with
    | nil => simp at h
    | cons w ws =>
      simp only [zNodesFrom, List.map_cons]
      refine congrArg₂ _ ?_ (ih ws (k + 1) (by simpa using h))
      simp [zNode]

/-! ## Claim theorems: diagram layout -/

/-- C1: for a template with `k` covariates, `dagNodes` returns `k + 2`
nodes in the order `[X, Y, Z0, Z1, ...]`: the treatment `X` first at the
left-center anchor `(80, 90)`, the outcome `Y` second at the right-center
anchor `(260, 90)` (same vertical coordinate), and the covariate at index
`i` on the top row (`y = 30`) when `i` is even and the bottom row
(`y = 150`) when `i` is odd, at horizontal coordinate
`80 + (i / 2) * 80` (the offset grows every two covariates). -/
theorem dagNodes_node_layout (tpl : CausalTemplate) :
    (dagNodesOf tpl).length = tpl.Z.length + 2 ∧
    (dagNodesOf tpl)[0]? =
      some { id := tpl.X, label := "X: " ++ tpl.X, kind := "X", x := 80, y := 90 } ∧
    (dagNodesOf tpl)[1]? =
      some { id := tpl.Y, label := "Y: " ++ tpl.Y, kind := "Y", x := 260, y := 90 } ∧
    ∀ i, (h : i < tpl.Z.length) →
      (dagNodesOf tpl)[i + 2]? =
        some { id := tpl.Z[i], label := "Z: " ++ tpl.Z[i], kind := "Z",
               x := 80 + ((i / 2 : Nat) : Int) * 80,
               y := if i % 2 = 0 then 30 else 150 } := by
  refine ⟨by simp [dagNodesOf, zNodesFrom_length],
    by simp [dagNodesOf, xNodeOf], by simp [dagNodesOf, yNodeOf], ?_⟩
  intro i h
  have hz := zNodesFrom_getElem tpl.Z 0 i h
  simp only [dagNodesOf]
  rw [show i + 2 = (i + 1) + 1 by omega]
  rw [List.getElem?_cons_succ, List.getElem?_cons_succ, hz]
  simp [zNode]

/-- C1 witness: the layout of a concrete template with two covariates. -/
theorem dagNodes_node_layout_witness :
    (dagNodesOf ⟨"coffee", "sleep", ["age", "diet"], [], ""⟩).length = 4 ∧
    (dagNodesOf ⟨"coffee", "sleep", ["age", "diet"], [], ""⟩)[3]? =
      some { id := "diet", label := "Z: diet", kind := "Z", x := 80, y := 150 } := by
  have h := dagNodes_node_layout ⟨"coffee", "sleep", ["age", "diet"], [], ""⟩
  refine ⟨h.1, ?_⟩
  have h2 := h.2.2.2 1 (by decide)
  simpa using h2

/-- C5: the positions of the `k + 2` laid-out nodes are pairwise
distinct: no two nodes share the same `(x, y)` point. -/
theorem dagNodes_no_overlap (tpl : CausalTemplate) :
    (dagNodesOf tpl).Pairwise (fun a b => (a.x, a.y) ≠ (b.x, b.y)) := by
  have hz : ∀ n ∈ zNodesFrom 0 tpl.Z, n.y = 30 ∨ n.y = 150 := by
    intro n hn
    obtain ⟨j, w, rfl⟩ := zNodesFrom_mem 0 tpl.Z n hn
    exact zNode_y_cases _ _
  refine List.Pairwise.cons ?_ (List.Pairwise.cons ?_ (zNodesFrom_pairwise_pos tpl.Z 0))
  · intro n hn
    rcases List.mem_cons.mp hn with rfl | hn'
    · simp [xNodeOf, yNodeOf]
    · rcases hz n hn' with h30 | h150 <;>
        · intro hcontra
          rw [Prod.mk.injEq] at hcontra
          simp only [xNodeOf] at hcontra
          omega
  · intro n hn
    rcases hz n hn with h30 | h150 <;>
      · intro hcontra
        rw [Prod.mk.injEq] at hcontra
        simp only [yNodeOf] at hcontra
        omega

/-- C6: `dagEdges` projects each `(from, to)` pair of `Edges` verbatim,
preserving order and length (duplicates kept). -/
theorem dagEdges_projection (tpl : CausalTemplate) :
    (dagEdgesOf tpl).length = tpl.Edges.length ∧
    ∀ i, (h : i < tpl.Edges.length) →
      (dagEdgesOf tpl)[i]? =
        some { from_ := (tpl.Edges[i]).1, to_ := (tpl.Edges[i]).2 } := by
  refine ⟨by simp [dagEdgesOf], ?_⟩
  intro i h
  simp [dagEdgesOf, List.getElem?_map, List.getElem?_eq_getElem h]

/-- C6 witness: a concrete template whose duplicate edge pair is kept. -/
theorem dagEdges_projection_witness :
    (dagEdgesOf ⟨"a", "b", [], [("a", "b"), ("a", "b")], ""⟩).length = 2 ∧
    (dagEdgesOf ⟨"a", "b", [], [("a", "b"), ("a", "b")], ""⟩)[1]? =
      some { from_ := "a", to_ := "b" } := by
  have h := dagEdges_projection ⟨"a", "b", [], [("a", "b"), ("a", "b")], ""⟩
  exact ⟨h.1, h.2 1 (by decide)⟩

/-- C9: the layout getters are deterministic and idempotent (two calls on
the same template agree), and node geometry depends only on the number
and order of covariates: templates with equally long covariate lists get
identical position sequences. -/
theorem layout_deterministic (t1 t2 : CausalTemplate) (h : t1.Z.length = t2.Z.length) :
    dagNodesOf t1 = dagNodesOf t1 ∧
    dagEdgesOf t1 = dagEdgesOf t1 ∧
    (dagNodesOf t1).map (fun n => (n.x, n.y)) =
      (dagNodesOf t2).map (fun n => (n.x, n.y)) := by
  refine ⟨rfl, rfl, ?_⟩
  simp only [dagNodesOf, List.map_cons]
  refine congrArg₂ _ (by simp [xNodeOf]) (congrArg₂ _ (by simp [yNodeOf]) ?_)
  exact zNodesFrom_map_pos t1.Z t2.Z 0 h

/-- C9 witness: two templates with differently named covariates but the
same covariate count produce the same geometry. -/
theorem layout_deterministic_witness :
    (dagNodesOf ⟨"x", "y", ["a", "b"], [], ""⟩).map (fun n => (n.x, n.y)) =
      (dagNodesOf ⟨"u", "v", ["c", "d"], [], ""⟩).map (fun n => (n.x, n.y)) :=
  (layout_deterministic ⟨"x", "y", ["a", "b"], [], ""⟩ ⟨"u", "v", ["c", "d"], [], ""⟩
    (by decide)).2.2

/-! ## Claim theorems: trust presentation and ladder display -/

theorem mathRound_half_up (n : Int) : mathRound ((n : ℚ) + 1/2) = n + 1 := by
  unfold mathRound
  have h : ((n : ℚ) + 1/2) + 1/2 = ((n + 1 : Int) : ℚ) := by push_cast; ring
  rw [h, Int.floor_intCast]

/-- C2: `trustHint` has exactly three branches: with no result it is the
fixed default-uncertainty message; with aggregated trust exactly `(0, 0)`
and details containing `"no sources"` it is the fixed complete-uncertainty
message; otherwise it embeds `m` and `c` rounded to two decimal places
(`toFixedInt ⌊· * 100 + 1/2⌋`) plus the details text (empty when absent). -/
theorem trustHint_three_branches (s : AppComponent) :
    (s.result = none →
      trustHint s =
        "No sources provided · T(m, c) defaults to (0, 0) = complete uncertainty.") ∧
    (∀ r, s.result = some r →
      (r.AggregatedTrust.m = 0 ∧ r.AggregatedTrust.c = 0 ∧
          strIncludes (r.AggregatedTrust.Details.getD "") "no sources" = true →
        trustHint s =
          "No sources provided · T(m, c) = (0, 0) → complete uncertainty about evidence.") ∧
      (¬(r.AggregatedTrust.m = 0 ∧ r.AggregatedTrust.c = 0 ∧
          strIncludes (r.AggregatedTrust.Details.getD "") "no sources" = true) →
        trustHint s =
          "Aggregated trust T(m, c) = (" ++ toFixedInt ⌊r.AggregatedTrust.m * 100 + 1/2⌋
            ++ ", " ++ toFixedInt ⌊r.AggregatedTrust.c * 100 + 1/2⌋ ++ ") · "
            ++ r.AggregatedTrust.Details.getD "")) := by
  refine ⟨fun h => by simp [trustHint, h], fun r hr => ?_⟩
  constructor
  · intro hc
    simp [trustHint, hr, hc]
  · intro hc
    simp only [trustHint, hr, toFixed2]
    rw [if_neg (by simpa using hc)]

/-- A component state holding a given analysis result (test fixture). -/
def stateWith (r : AnalyzeResponsePayload) : AppComponent :=
  { claim := "", domain := "auto", sourceType := "", sourceUrl := "",
    sourceTitle := "", sourceYear := none, sampleSize := none,
    loading := false, statusText := "", backendStatus := "connected",
    result := some r }

/-- A minimal analysis result with a given rung and aggregated trust
(test fixture). -/
def resultWith (rung : String) (t : TrustScore) : AnalyzeResponsePayload :=
  { TextClaim := "", Domain := "health", Rung := rung,
    Template := ⟨"x", "y", [], [], ""⟩, Estimand := ⟨true, "", ""⟩,
    SourceTrust := [], AggregatedTrust := t, Explanation := "" }

/-- C2 witness: the generic branch at `m = 0.8`, `c = 0.6`. -/
theorem trustHint_three_branches_witness :
    trustHint (stateWith (resultWith "L2"
        ⟨4/5, 3/5, none, some "2 sources, avg recency 3y"⟩)) =
      "Aggregated trust T(m, c) = (0.80, 0.60) · 2 sources, avg recency 3y" := by
  have h := (trustHint_three_branches (stateWith (resultWith "L2"
      ⟨4/5, 3/5, none, some "2 sources, avg recency 3y"⟩))).2
    (resultWith "L2" ⟨4/5, 3/5, none, some "2 sources, avg recency 3y"⟩) rfl
  have h3 := h.2 (by norm_num [resultWith])
  simp only [resultWith] at h3
  have hm : ⌊(4/5 : ℚ) * 100 + 1/2⌋ = (80 : Int) := by norm_num
  have hc : ⌊(3/5 : ℚ) * 100 + 1/2⌋ = (60 : Int) := by norm_num
  simp only [hm, hc] at h3
  simp only [resultWith]
  rw [h3]
  decide

/-- C3: `trustPercent` and `confPercent` compute `round(m * 100)` and
`round(c * 100)` independently, where `round` takes halves up
(`⌊q + 1/2⌋`); `percent(0.5) = 50`, `percent(0.0) = 0`,
`percent(1.0) = 100`; nothing is clamped, so the out-of-range value `1.5`
yields the out-of-range percentage `150`. -/
theorem percent_round_half_up (s : AppComponent) :
    (∀ r, s.result = some r →
      trustPercent s = ⌊r.AggregatedTrust.m * 100 + 1/2⌋ ∧
      confPercent s = ⌊r.AggregatedTrust.c * 100 + 1/2⌋) ∧
    (∀ n : Int, mathRound ((n : ℚ) + 1/2) = n + 1) ∧
    mathRound ((1/2 : ℚ) * 100) = 50 ∧
    mathRound ((0 : ℚ) * 100) = 0 ∧
    mathRound ((1 : ℚ) * 100) = 100 ∧
    mathRound ((3/2 : ℚ) * 100) = 150 := by
  refine ⟨fun r hr => ⟨by simp [trustPercent, hr, mathRound],
      by simp [confPercent, hr, mathRound]⟩,
    mathRound_half_up, ?_, ?_, ?_, ?_⟩ <;> norm_num [mathRound]

/-- C3 witness: the percentages of a concrete result with `m = 0.5`,
`c = 1.5` are `50` and `150` (no clamping). -/
theorem percent_round_half_up_witness :
    trustPercent (stateWith (resultWith "L1" ⟨1/2, 3/2, none, none⟩)) = 50 ∧
    confPercent (stateWith (resultWith "L1" ⟨1/2, 3/2, none, none⟩)) = 150 := by
  have h := (percent_round_half_up
      (stateWith (resultWith "L1" ⟨1/2, 3/2, none, none⟩))).1
    (resultWith "L1" ⟨1/2, 3/2, none, none⟩) rfl
  simp only [resultWith] at h
  exact ⟨h.1.trans (by norm_num), h.2.trans (by norm_num)⟩

/-- C4: the ladder display maps `L2` to "Intervention", `L3` to
"Counterfactual", and anything else (an unrecognized rung or no result)
to "Association"; `rungClass` branches under exactly the same conditions,
so the chosen style tag always corresponds to the chosen label. -/
theorem rung_label_class_consistent (s : AppComponent) :
    (s.result = none →
      rungLabel s = "L1 · Association" ∧ rungClass s = "badge-rung-l1") ∧
    (∀ r, s.result = some r →
      (r.Rung = "L2" →
        rungLabel s = "L2 · Intervention" ∧ rungClass s = "badge-rung-l2") ∧
      (r.Rung = "L3" →
        rungLabel s = "L3 · Counterfactual" ∧ rungClass s = "badge-rung-l3") ∧
      (r.Rung ≠ "L2" → r.Rung ≠ "L3" →
        rungLabel s = "L1 · Association" ∧ rungClass s = "badge-rung-l1")) ∧
    (rungLabel s = "L2 · Intervention" ↔ rungClass s = "badge-rung-l2") ∧
    (rungLabel s = "L3 · Counterfactual" ↔ rungClass s = "badge-rung-l3") ∧
    (rungLabel s = "L1 · Association" ↔ rungClass s = "badge-rung-l1") := by
  rcases hres : s.result with _ | r
  · have hL : rungLabel s = "L1 · Association" := by simp [rungLabel, hres]
    have hC : rungClass s = "badge-rung-l1" := by simp [rungClass, hres]
    rw [hL, hC]
    refine ⟨fun _ => ⟨rfl, rfl⟩, fun r hr => ?_, by decide, by decide, by decide⟩
    exact absurd hr (by simp)
  · have hL : rungLabel s =
        (if r.Rung = "L2" then "L2 · Intervention"
         else if r.Rung = "L3" then "L3 · Counterfactual"
         else "L1 · Association") := by simp [rungLabel, hres]
    have hC : rungClass s =
        (if r.Rung = "L2" then "badge-rung-l2"
         else if r.Rung = "L3" then "badge-rung-l3"
         else "badge-rung-l1") := by simp [rungClass, hres]
    rw [hL, hC]
    refine ⟨fun h => absurd h (by simp), fun r' hr' => ?_, ?_⟩
    · have hrr : r = r' := by injection hr'
      subst hrr
      refine ⟨fun h2 => by simp only [h2]; decide, fun h3 => ?_, fun h2 h3 => ?_⟩
      · have h2 : r.Rung ≠ "L2" := fun h2 => absurd (h2.symm.trans h3) (by decide)
        simp only [h3, if_neg h2]
        decide
      · simp only [if_neg h2, if_neg h3]
        decide
    · by_cases h2 : r.Rung = "L2"
      · simp only [h2]
        decide
      · by_cases h3 : r.Rung = "L3"
        · simp only [h3, if_neg h2]
          decide
        · simp only [if_neg h2, if_neg h3]
          decide

/-- C4 witness: an unrecognized rung (`"L9"`) falls back to the
Association label and style. -/
theorem rung_label_class_consistent_witness :
    rungLabel (stateWith (resultWith "L9" ⟨0, 0, none, none⟩)) = "L1 · Association" ∧
    rungClass (stateWith (resultWith "L9" ⟨0, 0, none, none⟩)) = "badge-rung-l1" :=
  ((rung_label_class_consistent (stateWith (resultWith "L9" ⟨0, 0, none, none⟩))).2.1
    (resultWith "L9" ⟨0, 0, none, none⟩) rfl).2.2 (by decide) (by decide)

/-! ## Claim theorems: runAnalysis state transitions -/

/-- C7: when the claim is empty after trimming, `runAnalysis` only sets
the inline status text and returns: no request is issued and the result,
loading flag, backend status and all form fields are unchanged. -/
theorem runAnalysis_empty_claim (s : AppComponent) (h : jsTrim s.claim = "") :
    (runAnalysis s).2 = none ∧
    (runAnalysis s).1.statusText = "Please enter a claim before running analysis." ∧
    (runAnalysis s).1.result = s.result ∧
    (runAnalysis s).1.loading = s.loading ∧
    (runAnalysis s).1.backendStatus = s.backendStatus ∧
    (runAnalysis s).1.claim = s.claim ∧
    (runAnalysis s).1.domain = s.domain ∧
    (runAnalysis s).1.sourceType = s.sourceType ∧
    (runAnalysis s).1.sourceUrl = s.sourceUrl ∧
    (runAnalysis s).1.sourceTitle = s.sourceTitle ∧
    (runAnalysis s).1.sourceYear = s.sourceYear ∧
    (runAnalysis s).1.sampleSize = s.sampleSize := by
  simp [runAnalysis, h]

/-- C7 witness: a whitespace-only claim in an otherwise loaded state. -/
theorem runAnalysis_empty_claim_witness :
    (runAnalysis (stateWith (resultWith "L1" ⟨0, 0, none, none⟩))).2 = none ∧
    (runAnalysis (stateWith (resultWith "L1" ⟨0, 0, none, none⟩))).1.result =
      some (resultWith "L1" ⟨0, 0, none, none⟩) := by
  have h := runAnalysis_empty_claim (stateWith (resultWith "L1" ⟨0, 0, none, none⟩))
    (by decide)
  exact ⟨h.1, h.2.2.1⟩

/-- C8: the error callback of `runAnalysis` keeps the previously stored
result (and every form field) unchanged; only the status text, the
backend-status indicator and the loading flag are modified. -/
theorem error_keeps_last_result (s : AppComponent) :
    (onAnalysisError s).result = s.result ∧
    (onAnalysisError s).statusText = "Error during analysis. Check backend." ∧
    (onAnalysisError s).backendStatus = "error" ∧
    (onAnalysisError s).loading = false ∧
    (onAnalysisError s).claim = s.claim ∧
    (onAnalysisError s).domain = s.domain ∧
    (onAnalysisError s).sourceType = s.sourceType ∧
    (onAnalysisError s).sourceUrl = s.sourceUrl ∧
    (onAnalysisError s).sourceTitle = s.sourceTitle ∧
    (onAnalysisError s).sourceYear = s.sourceYear ∧
    (onAnalysisError s).sampleSize = s.sampleSize := by
  simp [onAnalysisError]

/-- The initial field values of `AppComponent` (the idle state before any
submission). -/
def initialState : AppComponent :=
  { claim := "", domain := "auto", sourceType := "", sourceUrl := "",
    sourceTitle := "", sourceYear := none, sampleSize := none,
    loading := false, statusText := "Idle · waiting for a claim",
    backendStatus := "connected", result := none }

/-- C10: with no analysis result, `trustPercent` and `confPercent` are
both `0`, matching the `(0, 0)` complete-uncertainty default described by
the idle `trustHint` message. -/
theorem idle_percent_default (s : AppComponent) (h : s.result = none) :
    trustPercent s = 0 ∧ confPercent s = 0 ∧
    trustHint s =
      "No sources provided · T(m, c) defaults to (0, 0) = complete uncertainty." := by
  simp [trustPercent, confPercent, trustHint, h]

/-- C10 witness: the initial component state. -/
theorem idle_percent_default_witness :
    trustPercent initialState = 0 ∧ confPercent initialState = 0 ∧
    trustHint initialState =
      "No sources provided · T(m, c) defaults to (0, 0) = complete uncertainty." :=
  idle_percent_default initialState rfl
